import Mathlib

/-!
Verification of the JetLag actor-creation layer.

This file gives a shallow embedding of the `WorldApi` actor-creation and
parallax-layer methods (src/jetlag/api/World.ts) and of the `GameConfig`
object (src/game/GameConfig.ts), and proves the stated properties of the
specification against it.

JavaScript numbers are modelled as rationals (`Rat`); optional fields of the
TypeScript configuration records are `Option`s, with `none` standing for an
absent (`undefined`) field.  Calls that the code makes into the external
engine (`addActor`, the score callbacks, `setCollisionsEnabled`) are recorded
as a trace of `WorldEffect`s.
-/

namespace JetLag

/-- Body types of the external PhysicsType2d library, as used by the code. -/
inductive BodyType
  | STATIC
  | DYNAMIC
deriving DecidableEq, Repr

/-- The five kinds of physics-backed actors created by `WorldApi`. -/
inductive ActorKind
  | hero
  | enemy
  | obstacle
  | goodie
  | destination
deriving DecidableEq, Repr

/-- The physics body attached to an actor: the result of the one
`setPolygonPhysics` / `setBoxPhysics` / `setCirclePhysics` call that each
branch of the actor-creation methods performs. -/
inductive PhysicsShape
  | polygon (bodyType : BodyType) (x y : Rat) (verts : List Rat)
  | box (bodyType : BodyType) (x y : Rat)
  | circle (bodyType : BodyType) (x y radius : Rat)
deriving DecidableEq, Repr

/-- The coarse shape of a physics body, for stating the dispatch precedence. -/
inductive ShapeKind
  | polygon
  | box
  | circle
deriving DecidableEq, Repr

/-- The body type a `PhysicsShape` was created with. -/
def PhysicsShape.bodyType : PhysicsShape → BodyType
  | .polygon bt _ _ _ => bt
  | .box bt _ _ => bt
  | .circle bt _ _ _ => bt

/-- The coarse shape of a `PhysicsShape`. -/
def PhysicsShape.shapeKind : PhysicsShape → ShapeKind
  | .polygon _ _ _ _ => .polygon
  | .box _ _ _ => .box
  | .circle _ _ _ _ => .circle

/-- `ActorConfig` (src/jetlag/api/World.ts): mandatory `x`, `y`, `width`,
`height`; optional `img`, `box`, `verts`, `z`.  An optional field is `none`
when the caller leaves it out of the object literal. -/
structure ActorConfig where
  x : Rat
  y : Rat
  width : Rat
  height : Rat
  img : Option String
  box : Option Bool
  verts : Option (List Rat)
  z : Option Rat
deriving DecidableEq, Repr

/-- An `ActorConfig` after `checkActorConfig` has filled in the optional
fields: `img`, `box` and `z` are now present, `verts` is an array or null. -/
structure CheckedActorConfig where
  x : Rat
  y : Rat
  width : Rat
  height : Rat
  img : String
  box : Bool
  verts : Option (List Rat)
  z : Rat
deriving DecidableEq, Repr

/-- `checkActorConfig` (src/jetlag/api/World.ts, lines 60-67).  Each line of
the embedding mirrors one statement of the source; the JavaScript truthiness
tests collapse as noted, because the only falsy string is `""`, the only
falsy boolean is `false`, the only falsy number is `0` and arrays are always
truthy. -/
def checkActorConfig (c : ActorConfig) : CheckedActorConfig :=
  -- if (!c.img) c.img = "";   (falsy string is exactly "")
  let img := c.img.getD ""
  -- if (!c.box) c.box = false;   (falsy boolean is exactly false)
  let box := c.box.getD false
  -- if (!c.verts) c.verts = null;   (an array is never falsy, so only
  -- undefined becomes null: the field is unchanged up to null/undefined)
  let verts := c.verts
  -- if (!c.z) c.z = 0;   (falsy number is exactly 0)
  let z0 := c.z.getD 0
  -- if (c.z < -2) c.z = -2;
  let z1 := if z0 < -2 then (-2 : Rat) else z0
  -- if (c.z > 2) c.z = 2;
  let z2 := if z1 > 2 then (2 : Rat) else z1
  { x := c.x, y := c.y, width := c.width, height := c.height,
    img := img, box := box, verts := verts, z := z2 }

/-- An engine-managed actor handle, as the actor-creation methods build it:
the constructor arguments of `new Hero(...)` etc., plus the physics body set
immediately afterwards. -/
structure WorldActor where
  kind : ActorKind
  width : Rat
  height : Rat
  img : String
  zRender : Rat
  physics : PhysicsShape
deriving DecidableEq, Repr

/-- A call the actor-creation methods make into the engine, in order. -/
inductive WorldEffect
  | addActor (actor : WorldActor) (zIndex : Rat)
  | onHeroCreated
  | onEnemyCreated
  | setCollisionsEnabled (actor : WorldActor) (enabled : Bool)
deriving DecidableEq, Repr

/-- `makeObstacle` (src/jetlag/api/World.ts, lines 169-187): dispatch on
`verts` then `box`, then `addActor(o, cfg.z)`. -/
def makeObstacle (cfg : ActorConfig) : WorldActor × List WorldEffect :=
  let c := checkActorConfig cfg
  let o : WorldActor :=
    match c.verts with
    | some vs =>
      { kind := .obstacle, width := c.width, height := c.height, img := c.img,
        zRender := c.z, physics := .polygon .STATIC c.x c.y vs }
    | none =>
      if c.box then
        { kind := .obstacle, width := c.width, height := c.height, img := c.img,
          zRender := c.z, physics := .box .STATIC c.x c.y }
      else
        -- let radius: number = Math.max(cfg.width, cfg.height);
        let radius := max c.width c.height
        { kind := .obstacle, width := radius, height := radius, img := c.img,
          zRender := c.z, physics := .circle .STATIC c.x c.y (radius / 2) }
  (o, [WorldEffect.addActor o c.z])

/-- `makeHero` (src/jetlag/api/World.ts, lines 197-216): same dispatch with
DYNAMIC bodies, then `score.onHeroCreated()` and `addActor(h, 0)`. -/
def makeHero (cfg : ActorConfig) : WorldActor × List WorldEffect :=
  let c := checkActorConfig cfg
  let h : WorldActor :=
    match c.verts with
    | some vs =>
      { kind := .hero, width := c.width, height := c.height, img := c.img,
        zRender := c.z, physics := .polygon .DYNAMIC c.x c.y vs }
    | none =>
      if c.box then
        { kind := .hero, width := c.width, height := c.height, img := c.img,
          zRender := c.z, physics := .box .DYNAMIC c.x c.y }
      else
        let radius := max c.width c.height
        { kind := .hero, width := radius, height := radius, img := c.img,
          zRender := c.z, physics := .circle .DYNAMIC c.x c.y (radius / 2) }
  (h, [WorldEffect.onHeroCreated, WorldEffect.addActor h 0])

/-- `makeEnemy` (src/jetlag/api/World.ts, lines 226-245): STATIC bodies, then
`score.onEnemyCreated()` and `addActor(e, 0)`. -/
def makeEnemy (cfg : ActorConfig) : WorldActor × List WorldEffect :=
  let c := checkActorConfig cfg
  let e : WorldActor :=
    match c.verts with
    | some vs =>
      { kind := .enemy, width := c.width, height := c.height, img := c.img,
        zRender := c.z, physics := .polygon .STATIC c.x c.y vs }
    | none =>
      if c.box then
        { kind := .enemy, width := c.width, height := c.height, img := c.img,
          zRender := c.z, physics := .box .STATIC c.x c.y }
      else
        let radius := max c.width c.height
        { kind := .enemy, width := radius, height := radius, img := c.img,
          zRender := c.z, physics := .circle .STATIC c.x c.y (radius / 2) }
  (e, [WorldEffect.onEnemyCreated, WorldEffect.addActor e 0])

/-- `makeDestination` (src/jetlag/api/World.ts, lines 255-274): STATIC
bodies, then `setCollisionsEnabled(false)` and `addActor(d, 0)`. -/
def makeDestination (cfg : ActorConfig) : WorldActor × List WorldEffect :=
  let c := checkActorConfig cfg
  let d : WorldActor :=
    match c.verts with
    | some vs =>
      { kind := .destination, width := c.width, height := c.height, img := c.img,
        zRender := c.z, physics := .polygon .STATIC c.x c.y vs }
    | none =>
      if c.box then
        { kind := .destination, width := c.width, height := c.height, img := c.img,
          zRender := c.z, physics := .box .STATIC c.x c.y }
      else
        let radius := max c.width c.height
        { kind := .destination, width := radius, height := radius, img := c.img,
          zRender := c.z, physics := .circle .STATIC c.x c.y (radius / 2) }
  (d, [WorldEffect.setCollisionsEnabled d false, WorldEffect.addActor d 0])

/-- `makeGoodie` (src/jetlag/api/World.ts, lines 284-303): STATIC bodies,
then `setCollisionsEnabled(false)` and `addActor(g, 0)`. -/
def makeGoodie (cfg : ActorConfig) : WorldActor × List WorldEffect :=
  let c := checkActorConfig cfg
  let g : WorldActor :=
    match c.verts with
    | some vs =>
      { kind := .goodie, width := c.width, height := c.height, img := c.img,
        zRender := c.z, physics := .polygon .STATIC c.x c.y vs }
    | none =>
      if c.box then
        { kind := .goodie, width := c.width, height := c.height, img := c.img,
          zRender := c.z, physics := .box .STATIC c.x c.y }
      else
        let radius := max c.width c.height
        { kind := .goodie, width := radius, height := radius, img := c.img,
          zRender := c.z, physics := .circle .STATIC c.x c.y (radius / 2) }
  (g, [WorldEffect.setCollisionsEnabled g false, WorldEffect.addActor g 0])

/-- The `addActor` calls in a trace, as (actor, zIndex) pairs in order. -/
def addActorCalls (effs : List WorldEffect) : List (WorldActor × Rat) :=
  effs.filterMap fun e =>
    match e with
    | .addActor a zIndex => some (a, zIndex)
    | _ => none

/-- Modelled from the spec: `ImageConfig` is declared in
src/jetlag/api/JetLag.ts, which is not among the provided sources.  The spec
describes it as "an image/text placement descriptor: position, dimensions,
image ... reference, z-order", with the optional fields subject to the same
silent defaulting as the actor descriptor. -/
structure ImageConfig where
  x : Rat
  y : Rat
  width : Rat
  height : Rat
  img : Option String
  z : Option Rat
deriving DecidableEq, Repr

/-- An `ImageConfig` after validation: `img` and `z` filled in. -/
structure CheckedImageConfig where
  x : Rat
  y : Rat
  width : Rat
  height : Rat
  img : String
  z : Rat
deriving DecidableEq, Repr

/-- Modelled from the spec: `checkImageConfig` lives in
src/jetlag/api/JetLag.ts, which is not among the provided sources.  Per the
spec, "defaults are silently substituted for missing optional fields;
out-of-range z-order is clamped rather than rejected". -/
def checkImageConfig (c : ImageConfig) : CheckedImageConfig :=
  let img := c.img.getD ""
  let z0 := c.z.getD 0
  let z1 := if z0 < -2 then (-2 : Rat) else z0
  let z2 := if z1 > 2 then (2 : Rat) else z1
  { x := c.x, y := c.y, width := c.width, height := c.height, img := img, z := z2 }

/-- A `ParallaxLayer` as constructed by the layer methods: the arguments of
`new ParallaxLayer(x, y, width, height, speed, isHoriz, isAuto, imgName, ...)`
(the trailing config and device arguments carry no per-layer data). -/
structure ParallaxLayer where
  x : Rat
  y : Rat
  width : Rat
  height : Rat
  speed : Rat
  isHoriz : Bool
  isAuto : Bool
  img : String
deriving DecidableEq, Repr

/-- Where a layer method registers its layer. -/
inductive LayerTarget
  | background
  | foreground
deriving DecidableEq, Repr

/-- `addHorizontalBackgroundLayer` (src/jetlag/api/World.ts, lines 382-386):
`new ParallaxLayer(cfg.x, cfg.y, cfg.width, cfg.height, xSpeed, true, false, cfg.img, ...)`
added to the background. -/
def addHorizontalBackgroundLayer (cfg : ImageConfig) (xSpeed : Rat) :
    ParallaxLayer × LayerTarget :=
  let c := checkImageConfig cfg
  ({ x := c.x, y := c.y, width := c.width, height := c.height,
     speed := xSpeed, isHoriz := true, isAuto := false, img := c.img },
   .background)

/-- `addVerticalBackgroundLayer` (src/jetlag/api/World.ts, lines 398-402):
`new ParallaxLayer(..., ySpeed, false, false, ...)` added to the background. -/
def addVerticalBackgroundLayer (cfg : ImageConfig) (ySpeed : Rat) :
    ParallaxLayer × LayerTarget :=
  let c := checkImageConfig cfg
  ({ x := c.x, y := c.y, width := c.width, height := c.height,
     speed := ySpeed, isHoriz := false, isAuto := false, img := c.img },
   .background)

/-- `addHorizontalForegroundLayer` (src/jetlag/api/World.ts, lines 412-416):
`new ParallaxLayer(..., xSpeed, true, false, ...)` added to the foreground. -/
def addHorizontalForegroundLayer (cfg : ImageConfig) (xSpeed : Rat) :
    ParallaxLayer × LayerTarget :=
  let c := checkImageConfig cfg
  ({ x := c.x, y := c.y, width := c.width, height := c.height,
     speed := xSpeed, isHoriz := true, isAuto := false, img := c.img },
   .foreground)

/-- `addHorizontalAutoBackgroundLayer` (src/jetlag/api/World.ts, lines
426-430): `new ParallaxLayer(..., xSpeed / 1000, true, true, ...)` added to
the background. -/
def addHorizontalAutoBackgroundLayer (cfg : ImageConfig) (xSpeed : Rat) :
    ParallaxLayer × LayerTarget :=
  let c := checkImageConfig cfg
  ({ x := c.x, y := c.y, width := c.width, height := c.height,
     speed := xSpeed / 1000, isHoriz := true, isAuto := true, img := c.img },
   .background)

/-- `addVerticalAutoBackgroundLayer` (src/jetlag/api/World.ts, lines
440-444): `new ParallaxLayer(..., ySpeed / 1000, false, true, ...)` added to
the background. -/
def addVerticalAutoBackgroundLayer (cfg : ImageConfig) (ySpeed : Rat) :
    ParallaxLayer × LayerTarget :=
  let c := checkImageConfig cfg
  ({ x := c.x, y := c.y, width := c.width, height := c.height,
     speed := ySpeed / 1000, isHoriz := false, isAuto := true, img := c.img },
   .background)

/-- The five level/screen builder functions of src/game referenced by
`GameConfig`; opaque callbacks to the engine, identified by name. -/
inductive BuilderFn
  | buildLevelScreen
  | buildChooserScreen
  | buildHelpScreen
  | buildSplashScreen
  | buildStoreScreen
deriving DecidableEq, Repr

/-- The `ErrorVerbosity` enum of the engine console service (external to the
provided sources); `GameConfig` uses only `LOUD`. -/
inductive ErrorVerbosity
  | SILENT
  | QUIET
  | LOUD
deriving DecidableEq, Repr

/-- Modelled from the spec: the `GameCfg` interface is declared in
src/jetlag/Config.ts, which is not among the provided sources.  The spec
describes it as "asset name lists, screen dimensions, builder-function
references"; the fields are those that `GameConfig` (src/game/GameConfig.ts)
assigns. -/
structure GameCfg where
  pixelMeterRatio : Rat
  defaultScreenWidth : Rat
  defaultScreenHeight : Rat
  adaptToScreenSize : Bool
  canVibrate : Bool
  forceAccelerometerOff : Bool
  storageKey : String
  verbosity : ErrorVerbosity
  hitBoxes : Bool
  resourcePrefix : String
  musicNames : List String
  soundNames : List String
  imageNames : List String
  levelBuilder : BuilderFn
  chooserBuilder : BuilderFn
  helpBuilder : BuilderFn
  splashBuilder : BuilderFn
  storeBuilder : BuilderFn
deriving DecidableEq, Repr

/-- `GameConfig` (src/game/GameConfig.ts, lines 15-81), field for field. -/
def GameConfig : GameCfg :=
  { pixelMeterRatio := 100
    defaultScreenWidth := 1600
    defaultScreenHeight := 900
    adaptToScreenSize := true
    canVibrate := true
    forceAccelerometerOff := true
    storageKey := "com.me.my_jetlag_game.storage"
    verbosity := .LOUD
    hitBoxes := true
    resourcePrefix := "./assets/"
    musicNames := ["tune.ogg"]
    soundNames := ["high_pitch.ogg", "low_pitch.ogg", "lose_sound.ogg",
                   "win_sound.ogg", "slow_down.ogg", "woo_woo_woo.ogg",
                   "flap_flap.ogg"]
    imageNames := ["green_ball.png", "mustard_ball.png", "red_ball.png",
                   "blue_ball.png", "purple_ball.png", "grey_ball.png",
                   "left_arrow.png", "right_arrow.png", "back_arrow.png",
                   "level_tile.png", "audio_on.png", "audio_off.png",
                   "black.png", "red.png",
                   "msg2.png", "fade.png",
                   "splash.png", "chooser.png",
                   "mid.png", "front.png", "back.png",
                   "leg_star_1.png", "leg_star_2.png", "leg_star_3.png",
                   "leg_star_4.png", "leg_star_5.png", "leg_star_6.png",
                   "leg_star_7.png", "leg_star_8.png",
                   "flip_leg_star_1.png", "flip_leg_star_2.png",
                   "flip_leg_star_3.png", "flip_leg_star_4.png",
                   "flip_leg_star_5.png", "flip_leg_star_6.png",
                   "flip_leg_star_7.png", "flip_leg_star_8.png",
                   "fly_star_1.png", "fly_star_2.png",
                   "star_burst_1.png", "star_burst_2.png",
                   "star_burst_3.png", "star_burst_4.png",
                   "color_star_1.png", "color_star_2.png", "color_star_3.png",
                   "color_star_4.png", "color_star_5.png", "color_star_6.png",
                   "color_star_7.png", "color_star_8.png",
                   "noise.png", "pause.png"]
    levelBuilder := .buildLevelScreen
    chooserBuilder := .buildChooserScreen
    helpBuilder := .buildHelpScreen
    splashBuilder := .buildSplashScreen
    storeBuilder := .buildStoreScreen }

/-- Sample descriptor: a polygon with the box flag also set, to exercise the
precedence of the dispatch. -/
def cfgPoly : ActorConfig :=
  { x := 1, y := 2, width := 3, height := 4, img := some "red_ball.png",
    box := some true, verts := some [-1, 0, 1, 0, 0, 1], z := some 1 }

/-- Sample descriptor: a box, with an over-range z. -/
def cfgBox : ActorConfig :=
  { x := 1, y := 2, width := 3, height := 4, img := none,
    box := some true, verts := none, z := some 5 }

/-- Sample descriptor: a circle (no shape hints, no optional fields). -/
def cfgCircle : ActorConfig :=
  { x := 1, y := 2, width := 3, height := 5, img := none,
    box := none, verts := none, z := none }

/-- Sample descriptor: an under-range z. -/
def cfgLowZ : ActorConfig :=
  { x := 0, y := 0, width := 2, height := 2, img := none,
    box := some false, verts := none, z := some (-7) }

/-- Sample image descriptor for the layer methods. -/
def imgCfgEx : ImageConfig :=
  { x := 0, y := 0, width := 16, height := 9, img := some "back.png", z := some 0 }

/-- Helper: the validated z always lies in the closed interval [-2, 2]. -/
theorem check_z_range (c : ActorConfig) :
    -2 ≤ (checkActorConfig c).z ∧ (checkActorConfig c).z ≤ 2 := by
  have hz : (checkActorConfig c).z =
      if (if c.z.getD 0 < -2 then (-2 : Rat) else c.z.getD 0) > 2 then (2 : Rat)
      else if c.z.getD 0 < -2 then (-2 : Rat) else c.z.getD 0 := rfl
  rw [hz]
  split_ifs <;> constructor <;> linarith

/-- Claim C1: for every ActorConfig passed to an actor-creation method,
after validation the z field lies in [-2, 2]: a z below -2 becomes -2, a z
above 2 becomes 2, and a missing z defaults to 0. -/
theorem checkActorConfig_z_clamped (c : ActorConfig) :
    (-2 ≤ (checkActorConfig c).z ∧ (checkActorConfig c).z ≤ 2) ∧
    (∀ v : Rat, c.z = some v → v < -2 → (checkActorConfig c).z = -2) ∧
    (∀ v : Rat, c.z = some v → 2 < v → (checkActorConfig c).z = 2) ∧
    (c.z = none → (checkActorConfig c).z = 0) := by
  have hz : (checkActorConfig c).z =
      if (if c.z.getD 0 < -2 then (-2 : Rat) else c.z.getD 0) > 2 then (2 : Rat)
      else if c.z.getD 0 < -2 then (-2 : Rat) else c.z.getD 0 := rfl
  refine ⟨check_z_range c, ?_, ?_, ?_⟩
  · intro v hv hlt
    rw [hz, hv]
    simp only [Option.getD_some]
    split_ifs <;> first | rfl | linarith
  · intro v hv hgt
    rw [hz, hv]
    simp only [Option.getD_some]
    split_ifs <;> first | rfl | linarith
  · intro hn
    rw [hz, hn]
    norm_num

/-- Claim C1 witness: the clamp evaluated on concrete descriptors with z set
to -7, 5, and absent. -/
theorem checkActorConfig_z_clamped_witness :
    (checkActorConfig cfgLowZ).z = -2 ∧ (checkActorConfig cfgBox).z = 2 ∧
    (checkActorConfig cfgCircle).z = 0 :=
  ⟨(checkActorConfig_z_clamped cfgLowZ).2.1 (-7) rfl (by norm_num),
   (checkActorConfig_z_clamped cfgBox).2.2.1 5 rfl (by norm_num),
   (checkActorConfig_z_clamped cfgCircle).2.2.2 rfl⟩

/-- Claim C2: in each of the five actor-creation methods, shape selection
follows the precedence polygon > box > circle: non-null verts gives a polygon
body (even if box is also true), otherwise box gives a box body, otherwise a
circle body. -/
theorem make_shape_precedence (c : ActorConfig) :
    (c.verts ≠ none →
      (makeObstacle c).1.physics.shapeKind = .polygon ∧
      (makeHero c).1.physics.shapeKind = .polygon ∧
      (makeEnemy c).1.physics.shapeKind = .polygon ∧
      (makeDestination c).1.physics.shapeKind = .polygon ∧
      (makeGoodie c).1.physics.shapeKind = .polygon) ∧
    (c.verts = none → c.box = some true →
      (makeObstacle c).1.physics.shapeKind = .box ∧
      (makeHero c).1.physics.shapeKind = .box ∧
      (makeEnemy c).1.physics.shapeKind = .box ∧
      (makeDestination c).1.physics.shapeKind = .box ∧
      (makeGoodie c).1.physics.shapeKind = .box) ∧
    (c.verts = none → c.box ≠ some true →
      (makeObstacle c).1.physics.shapeKind = .circle ∧
      (makeHero c).1.physics.shapeKind = .circle ∧
      (makeEnemy c).1.physics.shapeKind = .circle ∧
      (makeDestination c).1.physics.shapeKind = .circle ∧
      (makeGoodie c).1.physics.shapeKind = .circle) := by
  rcases hv : c.verts with _ | vs <;>
  rcases hb : c.box with _ | b <;>
  (try cases b) <;>
  simp [makeObstacle, makeHero, makeEnemy, makeDestination, makeGoodie,
        checkActorConfig, hv, hb, PhysicsShape.shapeKind]

/-- Claim C2 witness: a descriptor with both verts and box set produces a
polygon, one with only box a box, one with neither a circle. -/
theorem make_shape_precedence_witness :
    (makeObstacle cfgPoly).1.physics.shapeKind = .polygon ∧
    (makeObstacle cfgBox).1.physics.shapeKind = .box ∧
    (makeObstacle cfgCircle).1.physics.shapeKind = .circle :=
  ⟨((make_shape_precedence cfgPoly).1 (by decide)).1,
   ((make_shape_precedence cfgBox).2.1 rfl rfl).1,
   ((make_shape_precedence cfgCircle).2.2 rfl (by decide)).1⟩

/-- Claim C3 counterexample: `addHorizontalAutoBackgroundLayer` called with
speed 1 constructs a ParallaxLayer whose speed is 1/1000, not 1, so not
every parallax-layer method passes its speed argument through unchanged. -/
theorem auto_layer_speed_not_passed_through :
    (addHorizontalAutoBackgroundLayer imgCfgEx 1).1.speed ≠ 1 := by
  show (1 : Rat) / 1000 ≠ 1
  norm_num

/-- Claim C3 (amended): the three non-auto layer methods pass the speed
argument s to the ParallaxLayer constructor unchanged, while the two auto
layer methods pass s / 1000. -/
theorem parallax_layer_speed (cfg : ImageConfig) (s : Rat) :
    (addHorizontalBackgroundLayer cfg s).1.speed = s ∧
    (addVerticalBackgroundLayer cfg s).1.speed = s ∧
    (addHorizontalForegroundLayer cfg s).1.speed = s ∧
    (addHorizontalAutoBackgroundLayer cfg s).1.speed = s / 1000 ∧
    (addVerticalAutoBackgroundLayer cfg s).1.speed = s / 1000 :=
  ⟨rfl, rfl, rfl, rfl, rfl⟩

/-- Claim C4: validation always succeeds; missing optional fields are
silently replaced by defaults (img "", box false, verts null, z 0) and an
out-of-range z is clamped into [-2, 2] rather than causing failure.
(`checkActorConfig` is a total function with no error outcome.) -/
theorem checkActorConfig_never_rejects (c : ActorConfig) :
    (c.img = none → (checkActorConfig c).img = "") ∧
    (c.box = none → (checkActorConfig c).box = false) ∧
    (c.verts = none → (checkActorConfig c).verts = none) ∧
    (c.z = none → (checkActorConfig c).z = 0) ∧
    (-2 ≤ (checkActorConfig c).z ∧ (checkActorConfig c).z ≤ 2) := by
  refine ⟨fun h => ?_, fun h => ?_, fun h => ?_, fun h => ?_, check_z_range c⟩
  · simp [checkActorConfig, h]
  · simp [checkActorConfig, h]
  · simp [checkActorConfig, h]
  · have hz : (checkActorConfig c).z =
        if (if c.z.getD 0 < -2 then (-2 : Rat) else c.z.getD 0) > 2 then (2 : Rat)
        else if c.z.getD 0 < -2 then (-2 : Rat) else c.z.getD 0 := rfl
    rw [hz, h]
    norm_num

/-- Claim C4 witness: validating the descriptor with every optional field
absent yields the documented defaults. -/
theorem checkActorConfig_never_rejects_witness :
    (checkActorConfig cfgCircle).img = "" ∧
    (checkActorConfig cfgCircle).box = false ∧
    (checkActorConfig cfgCircle).verts = none ∧
    (checkActorConfig cfgCircle).z = 0 :=
  ⟨(checkActorConfig_never_rejects cfgCircle).1 rfl,
   (checkActorConfig_never_rejects cfgCircle).2.1 rfl,
   (checkActorConfig_never_rejects cfgCircle).2.2.1 rfl,
   (checkActorConfig_never_rejects cfgCircle).2.2.2.1 rfl⟩

/-- Claim C5: validation modifies only the optional fields; the mandatory
x, y, width and height are unchanged by `checkActorConfig`. -/
theorem checkActorConfig_preserves_mandatory (c : ActorConfig) :
    (checkActorConfig c).x = c.x ∧ (checkActorConfig c).y = c.y ∧
    (checkActorConfig c).width = c.width ∧ (checkActorConfig c).height = c.height :=
  ⟨rfl, rfl, rfl, rfl⟩

/-- Claim C6: each actor-creation method performs exactly one `addActor`
call, whose actor is exactly the handle the method returns, and that actor
has the kind matching the method. -/
theorem make_methods_add_one_actor (c : ActorConfig) :
    ((addActorCalls (makeObstacle c).2).map Prod.fst = [(makeObstacle c).1] ∧
      (makeObstacle c).1.kind = .obstacle) ∧
    ((addActorCalls (makeHero c).2).map Prod.fst = [(makeHero c).1] ∧
      (makeHero c).1.kind = .hero) ∧
    ((addActorCalls (makeEnemy c).2).map Prod.fst = [(makeEnemy c).1] ∧
      (makeEnemy c).1.kind = .enemy) ∧
    ((addActorCalls (makeDestination c).2).map Prod.fst = [(makeDestination c).1] ∧
      (makeDestination c).1.kind = .destination) ∧
    ((addActorCalls (makeGoodie c).2).map Prod.fst = [(makeGoodie c).1] ∧
      (makeGoodie c).1.kind = .goodie) := by
  rcases hv : c.verts with _ | vs <;>
  rcases hb : c.box with _ | b <;>
  (try cases b) <;>
  simp [makeObstacle, makeHero, makeEnemy, makeDestination, makeGoodie,
        checkActorConfig, addActorCalls, hv, hb]

/-- Claim C7: GameConfig implements the GameCfg interface and supplies the
asset name lists, the 1600x900 screen dimensions, and the five builder
function references. -/
theorem gameConfig_implements_contract :
    GameConfig.defaultScreenWidth = 1600 ∧
    GameConfig.defaultScreenHeight = 900 ∧
    GameConfig.musicNames = ["tune.ogg"] ∧
    GameConfig.soundNames = ["high_pitch.ogg", "low_pitch.ogg", "lose_sound.ogg",
                             "win_sound.ogg", "slow_down.ogg", "woo_woo_woo.ogg",
                             "flap_flap.ogg"] ∧
    GameConfig.imageNames.length = 53 ∧
    GameConfig.levelBuilder = .buildLevelScreen ∧
    GameConfig.chooserBuilder = .buildChooserScreen ∧
    GameConfig.helpBuilder = .buildHelpScreen ∧
    GameConfig.splashBuilder = .buildSplashScreen ∧
    GameConfig.storeBuilder = .buildStoreScreen :=
  ⟨rfl, rfl, rfl, rfl, rfl, rfl, rfl, rfl, rfl, rfl⟩

/-- Claim C8: in the circle branch (verts null and box not true) every
actor-creation method builds the actor with width and height both equal to
max(width, height) and a circle body of radius max(width, height) / 2: the
larger dimension is the diameter, not the radius. -/
theorem circle_branch_max_dimension (c : ActorConfig)
    (hv : c.verts = none) (hb : c.box ≠ some true) :
    ((makeObstacle c).1.width = max c.width c.height ∧
      (makeObstacle c).1.height = max c.width c.height ∧
      (makeObstacle c).1.physics =
        .circle .STATIC c.x c.y (max c.width c.height / 2)) ∧
    ((makeHero c).1.width = max c.width c.height ∧
      (makeHero c).1.height = max c.width c.height ∧
      (makeHero c).1.physics =
        .circle .DYNAMIC c.x c.y (max c.width c.height / 2)) ∧
    ((makeEnemy c).1.width = max c.width c.height ∧
      (makeEnemy c).1.height = max c.width c.height ∧
      (makeEnemy c).1.physics =
        .circle .STATIC c.x c.y (max c.width c.height / 2)) ∧
    ((makeDestination c).1.width = max c.width c.height ∧
      (makeDestination c).1.height = max c.width c.height ∧
      (makeDestination c).1.physics =
        .circle .STATIC c.x c.y (max c.width c.height / 2)) ∧
    ((makeGoodie c).1.width = max c.width c.height ∧
      (makeGoodie c).1.height = max c.width c.height ∧
      (makeGoodie c).1.physics =
        .circle .STATIC c.x c.y (max c.width c.height / 2)) := by
  have hbf : c.box.getD false = false := by
    rcases hB : c.box with _ | b
    · rfl
    · cases b
      · rfl
      · exact absurd hB hb
  simp [makeObstacle, makeHero, makeEnemy, makeDestination, makeGoodie,
        checkActorConfig, hv, hbf]

/-- Claim C8 witness: the circle branch on a 3-by-5 descriptor yields a
5-by-5 actor with a circle body of radius 5/2. -/
theorem circle_branch_max_dimension_witness :
    (makeObstacle cfgCircle).1.width = max cfgCircle.width cfgCircle.height ∧
    (makeObstacle cfgCircle).1.height = max cfgCircle.width cfgCircle.height ∧
    (makeObstacle cfgCircle).1.physics =
      .circle .STATIC cfgCircle.x cfgCircle.y
        (max cfgCircle.width cfgCircle.height / 2) :=
  (circle_branch_max_dimension cfgCircle rfl (by decide)).1

/-- Claim C9: only `makeObstacle` passes the validated z of the descriptor
to `addActor`; the other four methods always pass 0. -/
theorem only_obstacle_passes_z (c : ActorConfig) :
    (addActorCalls (makeObstacle c).2).map Prod.snd = [(checkActorConfig c).z] ∧
    (addActorCalls (makeHero c).2).map Prod.snd = [0] ∧
    (addActorCalls (makeEnemy c).2).map Prod.snd = [0] ∧
    (addActorCalls (makeDestination c).2).map Prod.snd = [0] ∧
    (addActorCalls (makeGoodie c).2).map Prod.snd = [0] :=
  ⟨rfl, rfl, rfl, rfl, rfl⟩

/-- Claim C10: in every shape branch, `makeHero` creates a DYNAMIC physics
body while the other four actor-creation methods create STATIC ones. -/
theorem hero_dynamic_others_static (c : ActorConfig) :
    (makeHero c).1.physics.bodyType = .DYNAMIC ∧
    (makeObstacle c).1.physics.bodyType = .STATIC ∧
    (makeEnemy c).1.physics.bodyType = .STATIC ∧
    (makeDestination c).1.physics.bodyType = .STATIC ∧
    (makeGoodie c).1.physics.bodyType = .STATIC := by
  rcases hv : c.verts with _ | vs <;>
  rcases hb : c.box with _ | b <;>
  (try cases b) <;>
  simp [makeObstacle, makeHero, makeEnemy, makeDestination, makeGoodie,
        checkActorConfig, hv, hb, PhysicsShape.bodyType]

end JetLag
